import Mathlib

/-!
Verification of the Conversation Session and Export Transform subsystem of
src/pages/Chatbot.py: turn logging (log_conversation_turn), export
(export_conversation) and the user-input flow (handle_user_input).
Python strings are modelled as Lean strings; Python indexing and slicing are
by code point, so the character-level operations work on String.toList.
-/

/-- Python dict with string keys and string values, as an association list;
lookup returns the first binding (the source dicts have unique keys). -/
abbrev Metadata := List (String × String)

/-- Python dict.get with a default value. -/
def dictGet (m : Metadata) (key dflt : String) : String :=
  (m.lookup key).getD dflt

/-- A retrieved document object as consumed by Chatbot.py: page_content plus a
metadata mapping. The value none models a malformed document object whose
metadata attribute is missing. -/
structure Document where
  page_content : String
  metadata : Option Metadata
deriving DecidableEq

/-- Modelled from the spec: the document class itself is defined outside this
repository (in the backend pipeline and its library), and per the spec a
malformed document missing its metadata is treated as carrying an empty
mapping; this is the metadata value the logging code reads off a document. -/
def Document.metaOrEmpty (d : Document) : Metadata := d.metadata.getD []

/-- Python str.split on a single separator character: splitting an empty
string gives one empty piece, and adjacent separators give empty pieces. -/
def splitOnChar (sep : Char) (l : List Char) : List (List Char) :=
  l.foldr (fun c acc =>
    match acc with
    | [] => [[c]]
    | cur :: rest => if c = sep then [] :: cur :: rest else (c :: cur) :: rest)
    [[]]

/-- Components of a POSIX path as pathlib computes them: empty components and
the current-directory component are not name components. -/
def pathParts (s : String) : List String :=
  ((splitOnChar '/' s.toList).map String.mk).filter (fun p => p != "" && p != ".")

/-- Python Path(s).name: the final nonempty path component. -/
def pathName (s : String) : String :=
  ((pathParts s).getLast?).getD ""

/-- Python Path(s).parent.name: the name of the parent path. -/
def pathParentName (s : String) : String :=
  (((pathParts s).dropLast).getLast?).getD ""

/-- Python str.isspace on the characters str.strip removes: ASCII whitespace
(tab through carriage return, space), the ASCII separator block, next line
and no-break space. -/
def pyIsSpace (c : Char) : Bool :=
  c == ' ' || c == '\t' || c == '\n' || c == '\r' ||
  c == Char.ofNat 11 || c == Char.ofNat 12 ||
  c == Char.ofNat 28 || c == Char.ofNat 29 ||
  c == Char.ofNat 30 || c == Char.ofNat 31 ||
  c == Char.ofNat 133 || c == Char.ofNat 160

/-- Python str.strip(): drop leading and trailing whitespace. -/
def pyStrip (s : String) : String :=
  String.mk (((s.toList.dropWhile pyIsSpace).reverse.dropWhile pyIsSpace).reverse)

/-- Python str.find at the character level: the index of the first occurrence
of sub in l, or none where Python returns -1. -/
def findSub (sub : List Char) : List Char → Option Nat
  | [] => if sub.isPrefixOf ([] : List Char) then some 0 else none
  | c :: t =>
    if sub.isPrefixOf (c :: t) then some 0
    else (findSub sub t).map (fun n => n + 1)

/-- Embedding of Chatbot.py line 358: src_path_abs.replace of each backslash
by a forward slash. -/
def normalizeSeps (s : String) : String :=
  String.mk (s.toList.map (fun c => if c = '\\' then '/' else c))

/-- Embedding of Chatbot.py lines 351-372: the canonical source id appended to
source_ids for one raw source metadata mapping, given BASE_FOLDER_NAME. The
source string defaults to "unknown_source"; separators are normalized; if
BASE_FOLDER_NAME followed by a slash occurs, the id is the suffix of the
normalized path from its first occurrence, otherwise the original source
string (the except-branch fallback is unreachable in this total embedding). -/
def canonicalSourceId (baseFolderName : String) (meta : Metadata) : String :=
  match findSub (baseFolderName ++ "/").toList
      (normalizeSeps (dictGet meta "source" "unknown_source")).toList with
  | some start_index =>
    String.mk ((normalizeSeps (dictGet meta "source" "unknown_source")).toList.drop start_index)
  | none => dictGet meta "source" "unknown_source"

/-- One element of a turn's raw_sources list (Chatbot.py lines 296-299). -/
structure RawSource where
  page_content : String
  metadata : Metadata
deriving DecidableEq

/-- One element of a turn's summarized sources list (Chatbot.py lines 300-308);
country and law are stored as None when the key is absent. -/
structure SourceSummary where
  db_name : String
  country : Option String
  law : Option String
  source : String
deriving DecidableEq

/-- One record of st.session_state.conversation_log (Chatbot.py lines 290-312);
extracted_metadata is none when the key is absent from the dict. -/
structure Turn where
  timestamp : String
  question : String
  answer : String
  num_sources : Nat
  raw_sources : List RawSource
  sources : List SourceSummary
  extracted_metadata : Option Metadata
deriving DecidableEq

/-- Python truthiness of an optional dict: None and the empty mapping are
falsy. -/
def truthyMeta : Option Metadata → Bool
  | none => false
  | some m => !m.isEmpty

/-- Python truthiness of an optional string: None and the empty string are
falsy. -/
def truthyStr : Option String → Bool
  | none => false
  | some s => !s.isEmpty

/-- Embedding of Chatbot.py lines 288-314 (log_conversation_turn): build the
turn record and append it to the conversation log; the wall-clock timestamp is
passed explicitly. -/
def log_conversation_turn (timestamp question answer : String)
    (docs : List Document) (metadata : Option Metadata)
    (conversation_log : List Turn) : List Turn :=
  let turn : Turn :=
    { timestamp := timestamp
      question := question
      answer := answer
      num_sources := if docs.isEmpty then 0 else docs.length
      raw_sources := docs.map (fun d =>
        { page_content := d.page_content, metadata := d.metaOrEmpty })
      sources := docs.map (fun d =>
        { db_name := ((d.metaOrEmpty).lookup "db_name").getD
            (pathParentName (dictGet d.metaOrEmpty "source" ""))
          country := (d.metaOrEmpty).lookup "country"
          law := (d.metaOrEmpty).lookup "law"
          source := pathName (dictGet d.metaOrEmpty "source" "") })
      extracted_metadata := if truthyMeta metadata then metadata else none }
  conversation_log ++ [turn]

/-- One entry of the exported history array; the constructor carries the role
key of the Python dict. -/
inductive HistoryEntry where
  | user (content : String)
  | assistant (content : String) (contexts : List String)
      (source_ids : List String) (ground_truth : String)
deriving DecidableEq

/-- Embedding of Chatbot.py lines 336-382: the user entry and the assistant
entry (content, contexts, source_ids, ground_truth) produced for one turn. -/
def turnHistory (baseFolderName : String) (turn : Turn) : List HistoryEntry :=
  [ HistoryEntry.user turn.question,
    HistoryEntry.assistant turn.answer
      (turn.raw_sources.map (fun s => pyStrip s.page_content))
      (turn.raw_sources.map (fun s => canonicalSourceId baseFolderName s.metadata))
      "" ]

/-- The session object serialized by export_conversation (Chatbot.py lines
387-391). -/
structure SessionData where
  id : Int
  title : String
  history : List HistoryEntry
deriving DecidableEq

/-- Embedding of Chatbot.py lines 330-331: the exported title from the first
question. -/
def mkTitle (first_question : String) : String :=
  if first_question.length > 60
  then String.mk (first_question.toList.take 60) ++ "..."
  else first_question

/-- Embedding of Chatbot.py lines 317-393 (export_conversation): none on the
early-return path for an empty conversation log (a warning is shown and no
artifact is produced); otherwise the session object offered for download. The
export wall-clock id and the configuration's data_base_dir are passed
explicitly. -/
def export_conversation (session_id : Int) (data_base_dir : String)
    (conversation_log : List Turn) : Option SessionData :=
  match conversation_log with
  | [] => none
  | first :: _ =>
    some { id := session_id
           title := mkTitle first.question
           history := (conversation_log.map
             (turnHistory (pathName data_base_dir))).flatten }

/-- One entry of st.session_state.messages; optional keys are none when absent
from the dict. -/
structure Message where
  role : String
  content : String
  sources : Option (List Document)
  reasoning : Option String
  metadata : Option Metadata
deriving DecidableEq

/-- The chat session state read and written by handle_user_input. -/
structure ChatState where
  messages : List Message
  conversation_log : List Turn
deriving DecidableEq

/-- The outcome of the external answer_question pipeline call: the (answer,
docs, reasoning, metadata) tuple, or a raised exception with its message. -/
abbrev PipelineResult :=
  Except String (String × List Document × Option String × Option Metadata)

/-- Embedding of Chatbot.py lines 210-282 (handle_user_input): append the user
message, call the pipeline; on success append the assistant message and log
the turn; a raised exception is caught after the user message was appended and
before any append to the conversation log. -/
def handle_user_input (prompt : String) (result : PipelineResult)
    (timestamp : String) (state : ChatState) : ChatState :=
  let state1 : ChatState :=
    { state with messages := state.messages ++
        [{ role := "user", content := prompt,
           sources := none, reasoning := none, metadata := none }] }
  match result with
  | Except.error _ => state1
  | Except.ok (answer, docs, reasoning, metadata) =>
    let assistant_message : Message :=
      { role := "assistant"
        content := answer
        sources := some docs
        reasoning := if truthyStr reasoning then reasoning else none
        metadata := if truthyMeta metadata then metadata else none }
    { messages := state1.messages ++ [assistant_message]
      conversation_log :=
        log_conversation_turn timestamp prompt answer docs metadata
          state1.conversation_log }

/-! Helper lemmas about findSub, shared by the canonicalization results. -/

/-- Bool bridge: a prefix test that does not hold is false. -/
theorem isPrefixOf_eq_false_of_not {sub l : List Char}
    (h : ¬ sub.isPrefixOf l = true) : sub.isPrefixOf l = false := by
  cases hb : sub.isPrefixOf l with
  | false => rfl
  | true => exact absurd hb h

/-- The index returned by findSub is an occurrence of the pattern. -/
theorem findSub_isPrefixOf_drop (sub : List Char) :
    ∀ (l : List Char) (i : Nat), findSub sub l = some i →
      sub.isPrefixOf (l.drop i) = true := by
  intro l
  induction l with
  | nil =>
    intro i h
    unfold findSub at h
    split at h
    · rename_i hp
      cases h
      simpa using hp
    · cases h
  | cons c t ih =>
    intro i h
    unfold findSub at h
    split at h
    · rename_i hp
      cases h
      simpa using hp
    · rcases Option.map_eq_some'.mp h with ⟨j, hj, hji⟩
      subst hji
      simpa using ih j hj

/-- The index returned by findSub is the first occurrence: every earlier
index is not an occurrence. -/
theorem findSub_min (sub : List Char) :
    ∀ (l : List Char) (i : Nat), findSub sub l = some i →
      ∀ j, j < i → sub.isPrefixOf (l.drop j) = false := by
  intro l
  induction l with
  | nil =>
    intro i h j hj
    unfold findSub at h
    split at h
    · cases h
      omega
    · cases h
  | cons c t ih =>
    intro i h j hj
    unfold findSub at h
    split at h
    · cases h
      omega
    · rename_i hp
      rcases Option.map_eq_some'.mp h with ⟨m, hm, hmi⟩
      subst hmi
      cases j with
      | zero =>
        simp only [List.drop_zero]
        exact isPrefixOf_eq_false_of_not hp
      | succ k =>
        have hk : k < m := by omega
        simpa using ih m hm k hk

/-- When findSub returns none the pattern occurs nowhere. -/
theorem findSub_none_no_occurrence (sub : List Char) :
    ∀ (l : List Char), findSub sub l = none →
      ∀ j, sub.isPrefixOf (l.drop j) = false := by
  intro l
  induction l with
  | nil =>
    intro h j
    unfold findSub at h
    split at h
    · cases h
    · rename_i hp
      simp only [List.drop_nil]
      exact isPrefixOf_eq_false_of_not hp
  | cons c t ih =>
    intro h j
    unfold findSub at h
    split at h
    · cases h
    · rename_i hp
      have ht : findSub sub t = none := Option.map_eq_none'.mp h
      cases j with
      | zero =>
        simp only [List.drop_zero]
        exact isPrefixOf_eq_false_of_not hp
      | succ k => simpa using ih ht k

/-- Claim C1: for every document metadata mapping, the canonical source id is
computed from the metadata source string (sentinel "unknown_source" when the
key is absent) with backslashes replaced by slashes; when data_root_name
followed by a slash first occurs at index i of the normalized string, the id
is the substring from i; when it occurs nowhere, the id is the original source
string unchanged; and on the Contest_Data example the id is
"Contest_Data/italy_codes/civil_code.pdf". -/
theorem c1_canonical_source_id (base : String) (meta : Metadata) :
    (∀ i, findSub (base ++ "/").toList
        (normalizeSeps (dictGet meta "source" "unknown_source")).toList = some i →
      (base ++ "/").toList.isPrefixOf
          ((normalizeSeps (dictGet meta "source" "unknown_source")).toList.drop i) = true ∧
      (∀ j, j < i → (base ++ "/").toList.isPrefixOf
          ((normalizeSeps (dictGet meta "source" "unknown_source")).toList.drop j) = false) ∧
      canonicalSourceId base meta =
        String.mk ((normalizeSeps (dictGet meta "source" "unknown_source")).toList.drop i)) ∧
    (findSub (base ++ "/").toList
        (normalizeSeps (dictGet meta "source" "unknown_source")).toList = none →
      (∀ j, (base ++ "/").toList.isPrefixOf
          ((normalizeSeps (dictGet meta "source" "unknown_source")).toList.drop j) = false) ∧
      canonicalSourceId base meta = dictGet meta "source" "unknown_source") ∧
    canonicalSourceId "Contest_Data"
        [("source", "/home/x/Contest_Data/italy_codes/civil_code.pdf")] =
      "Contest_Data/italy_codes/civil_code.pdf" := by
  refine ⟨?_, ?_, by decide⟩
  · intro i h
    refine ⟨findSub_isPrefixOf_drop _ _ _ h, findSub_min _ _ _ h, ?_⟩
    unfold canonicalSourceId
    rw [h]
  · intro h
    refine ⟨findSub_none_no_occurrence _ _ h, ?_⟩
    unfold canonicalSourceId
    rw [h]

/-- Witness for C1 at a concrete Windows-style path: the first occurrence is
at index 9 of the normalized path and the id is the suffix from there. -/
theorem c1_canonical_source_id_witness :
    canonicalSourceId "Contest_Data"
        [("source", "C:\\legal\\Contest_Data\\estonia_cases\\case1.pdf")] =
      "Contest_Data/estonia_cases/case1.pdf" := by
  have h := (c1_canonical_source_id "Contest_Data"
      [("source", "C:\\legal\\Contest_Data\\estonia_cases\\case1.pdf")]).1 9 (by decide)
  rw [h.2.2]
  decide

/-- Claim C4: exporting an empty conversation log fails (the early-return
refusal path) and produces no session document artifact. -/
theorem c4_empty_export_refused (session_id : Int) (data_base_dir : String) :
    export_conversation session_id data_base_dir [] = none := rfl

/-- Claim C5: when the pipeline call raises, the caught-exception path leaves
the conversation log exactly as it was before the exchange. -/
theorem c5_pipeline_error_no_turn (prompt errmsg timestamp : String)
    (state : ChatState) :
    (handle_user_input prompt (Except.error errmsg) timestamp state).conversation_log
      = state.conversation_log := rfl

/-- Claim C9: two exports of the same conversation log content with the same
data root produce the same title and the same history; only the time-derived
id can differ between the runs. -/
theorem c9_export_deterministic (id1 id2 : Int) (data_base_dir : String)
    (log : List Turn) :
    (export_conversation id1 data_base_dir log).map SessionData.title
        = (export_conversation id2 data_base_dir log).map SessionData.title ∧
    (export_conversation id1 data_base_dir log).map SessionData.history
        = (export_conversation id2 data_base_dir log).map SessionData.history := by
  cases log with
  | nil => exact ⟨rfl, rfl⟩
  | cons first rest => exact ⟨rfl, rfl⟩

/-- The flattened history of a conversation log has two entries per turn. -/
theorem turnHistory_flatten_length (base : String) :
    ∀ log : List Turn,
      ((log.map (turnHistory base)).flatten).length = 2 * log.length := by
  intro log
  induction log with
  | nil => simp
  | cons t rest ih =>
    simp only [List.map_cons, List.flatten_cons, List.length_append,
      List.length_cons, turnHistory, List.length_nil]
    omega

/-- Entry 2k of the flattened history is the user entry of turn k and entry
2k+1 is its assistant entry. -/
theorem turnHistory_flatten_getElem (base : String) :
    ∀ (log : List Turn) (k : Nat),
      ((log.map (turnHistory base)).flatten)[2 * k]? =
        (log[k]?).map (fun t => HistoryEntry.user t.question) ∧
      ((log.map (turnHistory base)).flatten)[2 * k + 1]? =
        (log[k]?).map (fun t => HistoryEntry.assistant t.answer
          (t.raw_sources.map (fun s => pyStrip s.page_content))
          (t.raw_sources.map (fun s => canonicalSourceId base s.metadata)) "") := by
  intro log
  induction log with
  | nil => intro k; simp
  | cons t rest ih =>
    intro k
    have e1 : ((t :: rest).map (turnHistory base)).flatten
        = HistoryEntry.user t.question :: HistoryEntry.assistant t.answer
            (t.raw_sources.map (fun s => pyStrip s.page_content))
            (t.raw_sources.map (fun s => canonicalSourceId base s.metadata)) ""
          :: ((rest.map (turnHistory base)).flatten) := by
      simp [turnHistory]
    cases k with
    | zero => rw [e1]; simp
    | succ k =>
      rw [e1]
      have h2 : 2 * (k + 1) = 2 * k + 1 + 1 := by ring
      rw [h2]
      simp only [List.getElem?_cons_succ]
      exact ih k

/-- Claim C3: exporting a non-empty log of n turns yields a history of exactly
2*n entries, alternating one user then one assistant entry per turn in turn
order; entry 2k carries turn k's question, entry 2k+1 carries turn k's answer
and an empty-string ground_truth. -/
theorem c3_history_shape (session_id : Int) (data_base_dir : String)
    (log : List Turn) (hne : log ≠ []) :
    ∃ sd, export_conversation session_id data_base_dir log = some sd ∧
      sd.history.length = 2 * log.length ∧
      ∀ k, sd.history[2 * k]? =
          (log[k]?).map (fun t => HistoryEntry.user t.question) ∧
        sd.history[2 * k + 1]? =
          (log[k]?).map (fun t => HistoryEntry.assistant t.answer
            (t.raw_sources.map (fun s => pyStrip s.page_content))
            (t.raw_sources.map
              (fun s => canonicalSourceId (pathName data_base_dir) s.metadata))
            "") := by
  cases log with
  | nil => exact absurd rfl hne
  | cons first rest =>
    exact ⟨_, rfl, turnHistory_flatten_length _ _,
      turnHistory_flatten_getElem _ _⟩

/-- A sample turn without sources, used to instantiate the export theorems. -/
def turnA : Turn :=
  { timestamp := "2024-01-01T00:00:00"
    question := "q1"
    answer := "a1"
    num_sources := 0
    raw_sources := []
    sources := []
    extracted_metadata := none }

/-- Witness for C3 on a one-turn log: the export succeeds and its history has
two entries. -/
theorem c3_history_shape_witness :
    ∃ sd, export_conversation 0 "data/Contest_Data" [turnA] = some sd ∧
      sd.history.length = 2 := by
  obtain ⟨sd, h1, h2, h3⟩ :=
    c3_history_shape 0 "data/Contest_Data" [turnA] (List.cons_ne_nil _ _)
  exact ⟨sd, h1, by simpa using h2⟩

/-- Claim C2: in any exported history, every assistant entry has as many
contexts as source_ids, and both lists are the order-preserving images of the
same logged raw document list: position i holds the stripped text and the
canonical source id of the same raw document. -/
theorem c2_contexts_source_ids_aligned (session_id : Int)
    (data_base_dir : String) (log : List Turn) (sd : SessionData)
    (h : export_conversation session_id data_base_dir log = some sd) :
    ∀ e ∈ sd.history, ∀ content contexts s_ids g,
      e = HistoryEntry.assistant content contexts s_ids g →
      contexts.length = s_ids.length ∧
      ∃ t ∈ log,
        contexts = t.raw_sources.map (fun s => pyStrip s.page_content) ∧
        s_ids = t.raw_sources.map
          (fun s => canonicalSourceId (pathName data_base_dir) s.metadata) := by
  intro e he content contexts s_ids g heq
  subst heq
  cases log with
  | nil => cases h
  | cons first rest =>
    unfold export_conversation at h
    injection h with h
    subst h
    simp only [SessionData.history] at he
    rcases List.mem_flatten.mp he with ⟨l, hl, hel⟩
    rcases List.mem_map.mp hl with ⟨t, ht, rfl⟩
    simp only [turnHistory, List.mem_cons, List.mem_singleton] at hel
    rcases hel with hel | hel | hel
    · cases hel
    · rcases HistoryEntry.assistant.inj hel with ⟨hc, hcx, hsi, hg⟩
      subst hcx
      subst hsi
      exact ⟨by simp, t, ht, rfl, rfl⟩
    · cases hel

/-- A sample raw source pointing under the Contest_Data root. -/
def rsItaly : RawSource :=
  { page_content := "  Article 1 text  "
    metadata := [("source", "/home/x/Contest_Data/italy_codes/civil_code.pdf")] }

/-- A sample turn whose single raw source is rsItaly. -/
def turnWithSource : Turn :=
  { timestamp := "2024-01-01T00:00:01"
    question := "q2"
    answer := "a2"
    num_sources := 1
    raw_sources := [rsItaly]
    sources := []
    extracted_metadata := none }

/-- Witness for C2 on a concrete one-turn export: the assistant entry's
contexts and source_ids have equal length and come from the same raw source. -/
theorem c2_contexts_source_ids_aligned_witness :
    (["Article 1 text"] : List String).length =
      (["Contest_Data/italy_codes/civil_code.pdf"] : List String).length ∧
    ∃ t ∈ [turnWithSource],
      (["Article 1 text"] : List String) =
        t.raw_sources.map (fun s => pyStrip s.page_content) ∧
      (["Contest_Data/italy_codes/civil_code.pdf"] : List String) =
        t.raw_sources.map
          (fun s => canonicalSourceId (pathName "data/Contest_Data") s.metadata) := by
  have h := c2_contexts_source_ids_aligned 7 "data/Contest_Data" [turnWithSource]
      { id := 7
        title := "q2"
        history := [HistoryEntry.user "q2",
          HistoryEntry.assistant "a2" ["Article 1 text"]
            ["Contest_Data/italy_codes/civil_code.pdf"] ""] }
      (by decide)
      (HistoryEntry.assistant "a2" ["Article 1 text"]
        ["Contest_Data/italy_codes/civil_code.pdf"] "")
      (by decide)
      "a2" ["Article 1 text"] ["Contest_Data/italy_codes/civil_code.pdf"] "" rfl
  exact h

/-- Claim C6: logging a turn is a total operation that always appends one
record; the raw sources stored for the documents carry each document's text
and metadata, and a malformed document whose metadata is missing is stored
with the metadata defaulted to the empty mapping. -/
theorem c6_logging_total (timestamp question answer : String)
    (docs : List Document) (metadata : Option Metadata) (log : List Turn) :
    ∃ t, log_conversation_turn timestamp question answer docs metadata log
        = log ++ [t] ∧
      t.raw_sources = docs.map (fun d =>
        { page_content := d.page_content, metadata := d.metaOrEmpty }) ∧
      ∀ d ∈ docs, d.metadata = none → d.metaOrEmpty = [] := by
  refine ⟨_, rfl, rfl, ?_⟩
  intro d _ hd
  simp [Document.metaOrEmpty, hd]

/-- A sample malformed document whose metadata attribute is missing. -/
def docMissing : Document :=
  { page_content := "body text", metadata := none }

/-- Witness for C6: logging the malformed document succeeds and it is stored
with an empty metadata mapping. -/
theorem c6_logging_total_witness :
    ∃ t, log_conversation_turn "2024-01-01T00:00:02" "q" "a" [docMissing] none []
        = [t] ∧
      t.raw_sources = [{ page_content := "body text", metadata := [] }] ∧
      docMissing.metaOrEmpty = [] := by
  obtain ⟨t, h1, h2, h3⟩ :=
    c6_logging_total "2024-01-01T00:00:02" "q" "a" [docMissing] none []
  refine ⟨t, by simpa using h1, ?_, h3 docMissing (by simp) rfl⟩
  rw [h2]
  rfl

/-- Claim C7: the exported title comes from the first turn's question: a
question longer than 60 characters is cut to its first 60 characters followed
by the "..." marker; a question of at most 60 characters (60 included) is the
title unchanged. -/
theorem c7_title_truncation (session_id : Int) (data_base_dir : String)
    (first : Turn) (rest : List Turn) :
    ∃ sd, export_conversation session_id data_base_dir (first :: rest) = some sd ∧
      (first.question.length > 60 →
        sd.title = String.mk (first.question.toList.take 60) ++ "...") ∧
      (first.question.length ≤ 60 → sd.title = first.question) := by
  refine ⟨_, rfl, ?_, ?_⟩
  · intro h
    show mkTitle first.question = _
    unfold mkTitle
    rw [if_pos h]
  · intro h
    show mkTitle first.question = _
    unfold mkTitle
    rw [if_neg (by omega)]

/-- A sample turn whose question has 80 characters. -/
def turnLong : Turn :=
  { timestamp := "2024-01-01T00:00:03"
    question := String.mk (List.replicate 80 'Q')
    answer := "a3"
    num_sources := 0
    raw_sources := []
    sources := []
    extracted_metadata := none }

/-- Witness for C7: the 80-character question is truncated to 60 characters
plus the marker. -/
theorem c7_title_truncation_witness :
    ∃ sd, export_conversation 0 "data/Contest_Data" [turnLong] = some sd ∧
      sd.title = String.mk (List.replicate 60 'Q') ++ "..." := by
  obtain ⟨sd, h1, h2, h3⟩ := c7_title_truncation 0 "data/Contest_Data" turnLong []
  refine ⟨sd, h1, ?_⟩
  rw [h2 (by decide)]
  decide

/-- Claim C8: logging a turn grows the conversation log by exactly one entry,
leaves every previously appended turn unchanged, and the appended turn's
timestamp, question, answer and raw document texts and metadata equal the
inputs verbatim. -/
theorem c8_log_append (timestamp question answer : String)
    (docs : List Document) (metadata : Option Metadata) (log : List Turn) :
    (log_conversation_turn timestamp question answer docs metadata log).length
        = log.length + 1 ∧
    (log_conversation_turn timestamp question answer docs metadata log).take
        log.length = log ∧
    ∃ t, log_conversation_turn timestamp question answer docs metadata log
        = log ++ [t] ∧
      t.timestamp = timestamp ∧ t.question = question ∧ t.answer = answer ∧
      t.raw_sources.map RawSource.page_content = docs.map Document.page_content ∧
      t.raw_sources.map RawSource.metadata = docs.map Document.metaOrEmpty := by
  refine ⟨by simp [log_conversation_turn], ?_, _, rfl, rfl, rfl, rfl, ?_, ?_⟩
  · show (log ++ _).take log.length = log
    exact List.take_left _ _
  · show (docs.map _).map _ = docs.map Document.page_content
    rw [List.map_map]
    rfl
  · show (docs.map _).map _ = docs.map Document.metaOrEmpty
    rw [List.map_map]
    rfl

/-- Claim C10: the appended turn carries an extracted_metadata key exactly
when the metadata argument is truthy: None and the empty mapping both produce
a turn without the key, while a non-empty mapping is stored unchanged. -/
theorem c10_extracted_metadata_truthy (timestamp question answer : String)
    (docs : List Document) (metadata : Option Metadata) (log : List Turn) :
    ∃ t, log_conversation_turn timestamp question answer docs metadata log
        = log ++ [t] ∧
      (metadata = none → t.extracted_metadata = none) ∧
      (metadata = some [] → t.extracted_metadata = none) ∧
      (∀ m, metadata = some m → m ≠ [] → t.extracted_metadata = some m) := by
  refine ⟨_, rfl, ?_, ?_, ?_⟩
  · intro h
    subst h
    rfl
  · intro h
    subst h
    rfl
  · intro m h hm
    subst h
    show (if truthyMeta (some m) then some m else none) = some m
    have hb : m.isEmpty = false := by
      cases m with
      | nil => exact absurd rfl hm
      | cons a l => rfl
    simp [truthyMeta, hb]

/-- Witness for C10: an empty-but-present metadata mapping is dropped. -/
theorem c10_extracted_metadata_truthy_witness :
    ∃ t, log_conversation_turn "2024-01-01T00:00:04" "q" "a" [] (some []) []
        = [t] ∧
      t.extracted_metadata = none := by
  obtain ⟨t, h1, h2, h3, h4⟩ :=
    c10_extracted_metadata_truthy "2024-01-01T00:00:04" "q" "a" [] (some []) []
  exact ⟨t, by simpa using h1, h3 rfl⟩
